import Mathlib

/-!
Verification of the request-handling pipeline of `src/server.js`
(an Express CRUD API over a MariaDB connection pool).

The embedding below is a shallow translation of the handlers in
`src/server.js`: JavaScript values in request bodies become `JsValue`,
the `express-validator` chains become `runRules`, the four tables of the
`sample` database become `DbState`, failure injection for the pool /
driver becomes `FaultModel`, and every route handler becomes a case of
`handle`, which returns the outcome observed by the client together with
the trace of pool events the handler performed and the resulting
database state.

A crucial point of fidelity: the four GET handlers in the source are
declared `async (req, res) => ...` — the `next` callback is NOT a
parameter — yet their catch blocks call `next(err)`.  Hence on any
connection or query error the catch block itself raises
`ReferenceError: next is not defined`; the rejection escapes the
handler, Express 4 sends no response, and the error never reaches the
error-handling middleware.  The embedding renders this as
`Outcome.noResponse "ReferenceError: next is not defined"`.
-/

/-- A JavaScript value as it can occur in a parsed JSON request body.
`vUndefined` stands for a field that is absent from the body. -/
inductive JsValue where
  | vStr (s : String)
  | vNum (n : Int)
  | vBool (b : Bool)
  | vNull
  | vUndefined
  deriving Repr, DecidableEq

/-- A request body: an association list from field names to values,
as produced by the JSON body parser. -/
def ReqBody := List (String × JsValue)

/-- Field lookup, as JavaScript property access on the parsed body:
a missing property reads as `undefined`. -/
def getField (b : ReqBody) (k : String) : JsValue :=
  match b.find? (fun p => p.1 = k) with
  | some p => p.2
  | none => JsValue.vUndefined

/-- The `isString()` check of express-validator: satisfied exactly by
string values (an absent field is `undefined`, hence not a string). -/
def isStringVal : JsValue → Bool
  | JsValue.vStr _ => true
  | _ => false

/-- One entry of the `errors.array()` produced by express-validator:
the offending field path and its message. -/
structure FieldError where
  path : String
  msg : String
  deriving Repr, DecidableEq

/-- Run a validation chain `body(f).isString()` for each field `f` of
`rules`, in order, collecting an error (with express-validator's default
message) for every field that is not a string.  This is the effect of
the middleware lists on the POST/PATCH/PUT agent routes combined with
`validateRequest` reading `validationResult(req)`. -/
def runRules (rules : List String) (b : ReqBody) : List FieldError :=
  rules.filterMap (fun f =>
    if isStringVal (getField b f) then none
    else some ⟨f, "Invalid value"⟩)

/-- A database row, as the driver returns it: field name / value pairs. -/
def Row := List (String × JsValue)

/-- The four tables of the `sample` database that the fixed SELECT
statements of `src/server.js` read. -/
structure DbState where
  agents : List Row
  company : List Row
  customer : List Row
  orders : List Row

/-- Evaluate one of the fixed SQL strings of the source against the
database: each `SELECT * FROM t` returns the rows of table `t`. -/
def runQuery (db : DbState) (sql : String) : Option (List Row) :=
  if sql = "SELECT * FROM agents" then some db.agents
  else if sql = "SELECT * FROM company" then some db.company
  else if sql = "SELECT * FROM customer" then some db.customer
  else if sql = "SELECT * FROM orders" then some db.orders
  else none

/-- Failure injection for the external collaborators of one request:
whether `pool.getConnection()` rejects, and whether `conn.query(...)`
rejects. -/
structure FaultModel where
  connFail : Bool
  queryFail : Bool

/-- A pool / driver event performed by a handler, in order. -/
inductive PoolEvent where
  | acquire
  | release
  | sqlQuery (sql : String)
  deriving Repr, DecidableEq

/-- The body of an HTTP response of this server. -/
inductive RespBody where
  | rows (rs : List Row)
  | errorList (es : List FieldError)
  | errorMsg (s : String)
  | text (s : String)

/-- An HTTP response: status code, Content-Type header, body. -/
structure HttpResponse where
  status : Nat
  contentType : String
  body : RespBody

/-- What the client observes for one request: either a finalized
response, or no response at all because an error escaped the handler
(an unhandled rejection; the connection hangs). -/
inductive Outcome where
  | resp (r : HttpResponse)
  | noResponse (escapedError : String)

/-- The error that escapes the catch block of every GET handler: the
handlers are `async (req, res)` with no `next` parameter, so the
`next(err)` call in the catch raises this. -/
def nextUndefined : String := "ReferenceError: next is not defined"

/-- The error-handling middleware of `src/server.js` lines 51-54: it
would answer 500 with the fixed JSON object, leaking no detail of the
underlying error. -/
def errorMiddleware (_err : String) : HttpResponse :=
  ⟨500, "application/json", RespBody.errorMsg "Internal Server Error"⟩

/-- The shared shape of the four GET handlers (`/agents`, `/companies`,
`/customers`, `/orders`): get a connection from the pool, run the one
fixed query, release the connection, set the JSON header and send the
rows; in the catch block, `next(err)` raises `ReferenceError` because
`next` is not in scope, so no response is produced and the connection
(when already acquired) is never released. -/
def getPipeline (db : DbState) (fm : FaultModel) (sql : String) :
    Outcome × List PoolEvent × DbState :=
  if fm.connFail then
    (Outcome.noResponse nextUndefined, [], db)
  else if fm.queryFail then
    (Outcome.noResponse nextUndefined,
     [PoolEvent.acquire, PoolEvent.sqlQuery sql], db)
  else
    match runQuery db sql with
    | some rs =>
        (Outcome.resp ⟨200, "application/json", RespBody.rows rs⟩,
         [PoolEvent.acquire, PoolEvent.sqlQuery sql, PoolEvent.release], db)
    | none =>
        (Outcome.noResponse nextUndefined,
         [PoolEvent.acquire, PoolEvent.sqlQuery sql], db)

/-- The shared shape of the validated stub write handlers (POST
`/agents`, PATCH `/agents/:id`, PUT `/agents/:id`): the validator chain
runs first; on any violation `validateRequest` answers 400 with the
error array; otherwise the stub body only sends the fixed confirmation
text (Express's `res.send` on a string sets a text/html Content-Type).
The pool is never touched. -/
def writePipeline (rules : List String) (confirmation : String)
    (db : DbState) (b : ReqBody) : Outcome × List PoolEvent × DbState :=
  let errs := runRules rules b
  if errs.isEmpty then
    (Outcome.resp ⟨200, "text/html", RespBody.text confirmation⟩, [], db)
  else
    (Outcome.resp ⟨400, "application/json", RespBody.errorList errs⟩, [], db)

/-- The routes of `src/server.js`.  The `:id` path segment of the
PATCH/PUT/DELETE routes is carried as the raw string Express extracts. -/
inductive Route where
  | getAgents
  | getCompanies
  | getCustomers
  | getOrders
  | postAgents
  | patchAgent (id : String)
  | putAgent (id : String)
  | deleteAgent (id : String)

/-- The validation rule list each route installs (the field names whose
`body(f).isString()` chains precede `validateRequest`). -/
def rulesOf : Route → List String
  | Route.postAgents => ["AGENT_CODE", "AGENT_NAME"]
  | Route.patchAgent _ => ["AGENT_NAME"]
  | Route.putAgent _ => ["AGENT_NAME"]
  | _ => []

/-- The one fixed SQL statement a route executes, if any: the four GET
routes each run one fixed unparameterized SELECT; the write routes run
none. -/
def routeQuery : Route → Option String
  | Route.getAgents => some "SELECT * FROM agents"
  | Route.getCompanies => some "SELECT * FROM company"
  | Route.getCustomers => some "SELECT * FROM customer"
  | Route.getOrders => some "SELECT * FROM orders"
  | _ => none

/-- Whether a route is one of the four read routes. -/
def Route.isGet : Route → Bool
  | Route.getAgents => true
  | Route.getCompanies => true
  | Route.getCustomers => true
  | Route.getOrders => true
  | _ => false

/-- Whether a route is one of the write routes on agents. -/
def Route.isWrite (r : Route) : Bool := !r.isGet

/-- One request dispatched through the Express router of
`src/server.js`: each case is the corresponding handler. -/
def handle (db : DbState) (fm : FaultModel) : Route → ReqBody →
    Outcome × List PoolEvent × DbState
  | Route.getAgents, _ => getPipeline db fm "SELECT * FROM agents"
  | Route.getCompanies, _ => getPipeline db fm "SELECT * FROM company"
  | Route.getCustomers, _ => getPipeline db fm "SELECT * FROM customer"
  | Route.getOrders, _ => getPipeline db fm "SELECT * FROM orders"
  | Route.postAgents, b =>
      writePipeline ["AGENT_CODE", "AGENT_NAME"] "Agent created successfully" db b
  | Route.patchAgent _, b =>
      writePipeline ["AGENT_NAME"] "Agent updated successfully" db b
  | Route.putAgent _, b =>
      writePipeline ["AGENT_NAME"] "Agent replaced successfully" db b
  | Route.deleteAgent _, _ =>
      (Outcome.resp ⟨200, "text/html", RespBody.text "Agent deleted successfully"⟩,
       [], db)

/-- Count of a given pool event in a handler's trace. -/
def countEvent (evs : List PoolEvent) (e : PoolEvent) : Nat :=
  (evs.filter (fun x => x = e)).length

/-- The SQL statements issued in a handler's trace, in order. -/
def queriesOf (evs : List PoolEvent) : List String :=
  evs.filterMap (fun e =>
    match e with
    | PoolEvent.sqlQuery s => some s
    | _ => none)

/-- The `connectionLimit` passed to `mariadb.createPool` in
`src/server.js`. -/
def connectionLimit : Nat := 15

/-- Modelled from the spec: the acquire/release discipline of the
connection pool lives in the mariadb driver, not in this repository;
`src/server.js` only configures its capacity (`connectionLimit: 15`).
Per the spec, "Acquisition blocks the request until a connection is
available", so a pool state carries the number of connections in use
and the queue of requests suspended at acquisition. -/
structure PoolState where
  capacity : Nat
  inUse : Nat
  waiting : List Nat

/-- Modelled from the spec: the result of an acquisition attempt is
either a granted connection or a suspension; there is no immediate
failure on exhaustion. -/
inductive AcquireStep where
  | granted (s : PoolState)
  | suspended (s : PoolState)

/-- Modelled from the spec: acquisition grants a connection while the
pool has spare capacity and otherwise appends the request to the wait
queue. -/
def poolAcquire (s : PoolState) (rid : Nat) : AcquireStep :=
  if s.inUse < s.capacity then
    AcquireStep.granted { s with inUse := s.inUse + 1 }
  else
    AcquireStep.suspended { s with waiting := s.waiting ++ [rid] }

/-- Modelled from the spec: releasing a connection hands it to the
earliest suspended request if any, and otherwise returns it to the
pool. -/
def poolRelease (s : PoolState) : PoolState × Option Nat :=
  match s.waiting with
  | [] => ({ s with inUse := s.inUse - 1 }, none)
  | r :: rest => ({ s with waiting := rest }, some r)

/-- The confirmation text each stub write route sends on success. -/
def confirmationOf : Route → String
  | Route.postAgents => "Agent created successfully"
  | Route.patchAgent _ => "Agent updated successfully"
  | Route.putAgent _ => "Agent replaced successfully"
  | Route.deleteAgent _ => "Agent deleted successfully"
  | _ => ""

/-- A database whose four tables are all empty. -/
def emptyDb : DbState := ⟨[], [], [], []⟩

/-- Fault-free external collaborators: connection and query succeed. -/
def fmOk : FaultModel := ⟨false, false⟩

/-- Faults where the connection is granted but the query rejects. -/
def fmQueryErr : FaultModel := ⟨false, true⟩

/-- A POST /agents body carrying AGENT_CODE but missing AGENT_NAME. -/
def bodyMissingName : ReqBody := [("AGENT_CODE", JsValue.vStr "A001")]

/-- A POST /agents body with both required string fields present. -/
def bodyValid : ReqBody :=
  [("AGENT_CODE", JsValue.vStr "A001"), ("AGENT_NAME", JsValue.vStr "Ramasundar")]

/-- Both branches of a validated stub write leave the pool untouched
and the database unchanged. -/
theorem writePipeline_frame (rules : List String) (c : String)
    (db : DbState) (b : ReqBody) :
    (writePipeline rules c db b).2.1 = [] ∧ (writePipeline rules c db b).2.2 = db := by
  by_cases h : (runRules rules b).isEmpty <;> simp [writePipeline, h]

/-- C1: refuted at a concrete failing input.  When the query of
GET /agents rejects after the connection was acquired, the handler's
trace contains one acquire and zero releases: the catch path of the
source never calls `conn.release()`, so the connection is leaked rather
than released exactly once on every exit path. -/
theorem C1_release_skipped_on_query_error :
    countEvent (handle emptyDb fmQueryErr Route.getAgents []).2.1 PoolEvent.acquire = 1 ∧
    countEvent (handle emptyDb fmQueryErr Route.getAgents []).2.1 PoolEvent.release = 0 := by
  decide

/-- C2: refuted at a concrete failing input.  When the query of
GET /companies rejects, the catch block's `next(err)` raises
`ReferenceError: next is not defined` (the handler has no `next`
parameter), so the error escapes the handler: the client receives no
response at all instead of the centralized 500. -/
theorem C2_error_escapes_handler :
    (handle emptyDb fmQueryErr Route.getCompanies []).1 =
      Outcome.noResponse nextUndefined ∧
    ∀ e, (handle emptyDb fmQueryErr Route.getCompanies []).1 ≠
      Outcome.resp (errorMiddleware e) := by
  refine ⟨rfl, fun e h => ?_⟩
  simp [handle, getPipeline, fmQueryErr, errorMiddleware] at h

/-- C3: on POST /agents, PATCH /agents/:id or PUT /agents/:id, a body
violating the declared string rules is answered 400 with the ordered
list of violated-field/message pairs, and the handler performs no pool
event (no connection acquired, no query executed). -/
theorem C3_validation_shortcircuits (db : DbState) (fm : FaultModel)
    (id : String) (b : ReqBody) (r : Route)
    (hr : r = Route.postAgents ∨ r = Route.patchAgent id ∨ r = Route.putAgent id)
    (hviol : runRules (rulesOf r) b ≠ []) :
    (handle db fm r b).1 =
      Outcome.resp ⟨400, "application/json",
        RespBody.errorList (runRules (rulesOf r) b)⟩ ∧
    (handle db fm r b).2.1 = [] := by
  rcases hr with h | h | h <;> subst h <;>
    simp only [rulesOf] at hviol ⊢ <;>
    simp [handle, writePipeline, List.isEmpty_iff, hviol]

/-- C3 witness: a POST /agents body missing AGENT_NAME is rejected with
the single violated pair and an empty pool trace. -/
theorem C3_witness :
    (handle emptyDb fmOk Route.postAgents bodyMissingName).1 =
      Outcome.resp ⟨400, "application/json",
        RespBody.errorList [⟨"AGENT_NAME", "Invalid value"⟩]⟩ ∧
    (handle emptyDb fmOk Route.postAgents bodyMissingName).2.1 = [] := by
  have h := C3_validation_shortcircuits emptyDb fmOk "1" bodyMissingName
    Route.postAgents (Or.inl rfl) (by decide)
  exact h

/-- C4: every handler issues at most one SQL statement; every statement
issued is the one fixed statement `routeQuery` maps the route to; write
routes issue none; and a read route whose connection is granted issues
exactly one. -/
theorem C4_one_query_per_route (db : DbState) (fm : FaultModel)
    (r : Route) (b : ReqBody) :
    (queriesOf (handle db fm r b).2.1).length ≤ 1 ∧
    (∀ q ∈ queriesOf (handle db fm r b).2.1, routeQuery r = some q) ∧
    (r.isWrite = true → queriesOf (handle db fm r b).2.1 = []) ∧
    (r.isGet = true → fm.connFail = false →
      (queriesOf (handle db fm r b).2.1).length = 1) := by
  rcases fm with ⟨cf, qf⟩
  have hw : ∀ (rules : List String) (c : String),
      (writePipeline rules c db b).2.1 = [] :=
    fun rules c => (writePipeline_frame rules c db b).1
  cases r <;> cases cf <;> cases qf <;>
    simp [handle, getPipeline, queriesOf, routeQuery, Route.isGet,
      Route.isWrite, runQuery, hw]

/-- C4 witness: instantiation at GET /orders with a granted
connection. -/
theorem C4_witness :
    (queriesOf (handle emptyDb fmOk Route.getOrders []).2.1).length ≤ 1 ∧
    (∀ q ∈ queriesOf (handle emptyDb fmOk Route.getOrders []).2.1,
      routeQuery Route.getOrders = some q) ∧
    (Route.getOrders.isWrite = true →
      queriesOf (handle emptyDb fmOk Route.getOrders []).2.1 = []) ∧
    (Route.getOrders.isGet = true → fmOk.connFail = false →
      (queriesOf (handle emptyDb fmOk Route.getOrders []).2.1).length = 1) :=
  C4_one_query_per_route emptyDb fmOk Route.getOrders []

/-- C5: a request to a write route whose body passes the declared
validation rules is answered 200 with the route's fixed plain-text
confirmation message (a text body, not a JSON row sequence). -/
theorem C5_write_success_confirmation (db : DbState) (fm : FaultModel)
    (id : String) (b : ReqBody) (r : Route)
    (hr : r = Route.postAgents ∨ r = Route.patchAgent id ∨
          r = Route.putAgent id ∨ r = Route.deleteAgent id)
    (hok : runRules (rulesOf r) b = []) :
    (handle db fm r b).1 =
      Outcome.resp ⟨200, "text/html", RespBody.text (confirmationOf r)⟩ := by
  rcases hr with h | h | h | h <;> subst h <;>
    simp only [rulesOf] at hok <;>
    simp [handle, writePipeline, confirmationOf, hok]

/-- C5 witness: a POST /agents body with both required string fields is
answered with the fixed confirmation text. -/
theorem C5_witness :
    (handle emptyDb fmOk Route.postAgents bodyValid).1 =
      Outcome.resp ⟨200, "text/html",
        RespBody.text "Agent created successfully"⟩ :=
  C5_write_success_confirmation emptyDb fmOk "1" bodyValid
    Route.postAgents (Or.inl rfl) (by decide)

/-- C6: a GET /agents request whose connection and query succeed
against an empty agents table is answered 200 with the JSON
Content-Type and an empty row sequence. -/
theorem C6_empty_table_ok (db : DbState) (fm : FaultModel) (b : ReqBody)
    (hc : fm.connFail = false) (hq : fm.queryFail = false)
    (hempty : db.agents = []) :
    (handle db fm Route.getAgents b).1 =
      Outcome.resp ⟨200, "application/json", RespBody.rows []⟩ := by
  rcases fm with ⟨cf, qf⟩
  simp only at hc hq
  subst hc hq
  simp [handle, getPipeline, runQuery, hempty]

/-- C6 witness: the fault-free run against the empty database. -/
theorem C6_witness :
    (handle emptyDb fmOk Route.getAgents []).1 =
      Outcome.resp ⟨200, "application/json", RespBody.rows []⟩ :=
  C6_empty_table_ok emptyDb fmOk [] rfl rfl rfl

/-- C7: in the modelled pool (capacity as configured in the source,
15), an acquisition against a full pool suspends the request at the end
of the wait queue instead of failing, and a release hands the freed
connection to the earliest suspended request. -/
theorem C7_full_pool_suspends (s : PoolState) (rid : Nat)
    (hfull : s.capacity ≤ s.inUse) :
    poolAcquire s rid =
      AcquireStep.suspended { s with waiting := s.waiting ++ [rid] } ∧
    (∀ r rest, s.waiting = r :: rest →
      (poolRelease s).2 = some r ∧ (poolRelease s).1.waiting = rest) ∧
    connectionLimit = 15 := by
  refine ⟨?_, ?_, rfl⟩
  · unfold poolAcquire
    rw [if_neg (Nat.not_lt.mpr hfull)]
  · intro r rest hwait
    unfold poolRelease
    rw [hwait]
    exact ⟨rfl, rfl⟩

/-- C7 witness: a full pool of capacity 15 with one request already
waiting: request 8 suspends behind it, and a release wakes the earlier
waiter. -/
theorem C7_witness :
    poolAcquire ⟨15, 15, [7]⟩ 8 =
      AcquireStep.suspended ⟨15, 15, [7, 8]⟩ ∧
    ((poolRelease ⟨15, 15, [7]⟩).2 = some 7 ∧
      (poolRelease ⟨15, 15, [7]⟩).1.waiting = []) ∧
    connectionLimit = 15 := by
  have h := C7_full_pool_suspends ⟨15, 15, [7]⟩ 8 (by decide)
  exact ⟨h.1, h.2.1 7 [] rfl, h.2.2⟩

/-- C8: a request to any write route on agents performs no pool event
at all (no connection acquired, no query issued) and leaves the
database state unchanged; only the HTTP response is produced. -/
theorem C8_writes_leave_db_untouched (db : DbState) (fm : FaultModel)
    (b : ReqBody) (r : Route) (hw : r.isWrite = true) :
    (handle db fm r b).2.1 = [] ∧ (handle db fm r b).2.2 = db := by
  cases r <;> simp [Route.isWrite, Route.isGet] at hw <;>
    first
      | exact writePipeline_frame _ _ db b
      | exact ⟨rfl, rfl⟩

/-- C8 witness: instantiation at DELETE /agents/9. -/
theorem C8_witness :
    (handle emptyDb fmOk (Route.deleteAgent "9") []).2.1 = [] ∧
    (handle emptyDb fmOk (Route.deleteAgent "9") []).2.2 = emptyDb :=
  C8_writes_leave_db_untouched emptyDb fmOk [] (Route.deleteAgent "9") rfl

/-- C9: the DELETE /agents/:id handler's try block only sends the fixed
text, so for every id, body, database state and fault pattern the
response is 200 with body "Agent deleted successfully"; the error
branch (and with it any 500 or 404) is unreachable. -/
theorem C9_delete_always_200 (db : DbState) (fm : FaultModel)
    (b : ReqBody) (id : String) :
    handle db fm (Route.deleteAgent id) b =
      (Outcome.resp ⟨200, "text/html",
        RespBody.text "Agent deleted successfully"⟩, [], db) := rfl

/-- C10: the stub PATCH, PUT and DELETE handlers never inspect the :id
path segment: two requests that differ only in the id produce identical
results. -/
theorem C10_id_never_inspected (db : DbState) (fm : FaultModel)
    (b : ReqBody) (id1 id2 : String) :
    handle db fm (Route.patchAgent id1) b = handle db fm (Route.patchAgent id2) b ∧
    handle db fm (Route.putAgent id1) b = handle db fm (Route.putAgent id2) b ∧
    handle db fm (Route.deleteAgent id1) b = handle db fm (Route.deleteAgent id2) b :=
  ⟨rfl, rfl, rfl⟩
